import Mathlib

/-!
Shallow embedding of the ivf-web video conversion server (backend
`server.js`, two server variants, and the frontend `App.tsx` progress
consumer), together with theorems settling the specification claims.

Variant 1 is the server with the multer `fileFilter` and the
format-dependent command construction (`/convert` route, lines 50-177);
variant 2 is the second server in the repository, built with
`multer({ dest: 'uploads/' })` and the elapsed-time ETA computation
(lines 368-494).
-/

namespace IvfWeb

/-! ## Path helpers (Node `path.extname` / `path.basename`) -/

/-- Characters of the basename: everything after the last slash. -/
def basenameChars (cs : List Char) : List Char :=
  (cs.reverse.takeWhile (fun c => c ≠ '/')).reverse

/-- Node `path.extname`: the extension of the basename from its last dot
(dot included); empty when there is no dot or the only dot is the
leading character of the basename. -/
def extname (name : String) : String :=
  let b := basenameChars name.toList
  let t := b.reverse.takeWhile (fun c => c ≠ '.')
  if t.length < b.length ∧ b.length - t.length - 1 ≠ 0 then
    String.mk ('.' :: t.reverse)
  else ""

/-- Node `path.basename(p, ext)` as used at line 89: the basename with
the given extension stripped from its end (only when it is a proper
suffix). -/
def basenameWithout (name ext : String) : String :=
  let b := basenameChars name.toList
  let e := ext.toList
  if e ≠ [] ∧ e.length < b.length ∧ b.reverse.take e.length = e.reverse then
    String.mk (b.take (b.length - e.length))
  else String.mk b

/-- Lower-casing used by the file filter (`toLowerCase()`). -/
def strToLower (s : String) : String :=
  String.mk (s.toList.map Char.toLower)

/-- JavaScript `x || d` on an optional string field: absent and empty
strings are falsy and yield the default. -/
def jsOrStr (v : Option String) (d : String) : String :=
  match v with
  | none => d
  | some s => if s = "" then d else s

/-! ## Variant 1: multer file filter (server.js lines 50-66) -/

/-- Supported input formats, from line 52. -/
def supportedFormats : List String :=
  [".mp4", ".mkv", ".mov", ".avi", ".flv", ".wmv", ".ivf"]

/-- The multer `fileFilter` (lines 50-60): accept iff the lower-cased
extension of the original name is in the supported list. -/
def fileFilter (originalname : String) : Bool :=
  supportedFormats.contains (strToLower (extname originalname))

/-! ## Variant 1: the ffmpeg command built by `/convert` (lines 86-125) -/

/-- The fluent-ffmpeg command as configured by the route handler. -/
structure FfmpegCommand where
  input : String
  videoCodec : Option String
  options : List String
  audioCodec : Option String
  size : Option String
  output : Option String
deriving DecidableEq, Repr

/-- Outcome of one `/convert` request for variant 1. -/
inductive ConvertOutcome where
  /-- `req.file` missing: 400 response, nothing else happens (lines 82-84). -/
  | noFile (status : Nat) (error : String)
  /-- multer `fileFilter` rejected the upload: the file is never persisted
  and the route handler never runs (lines 55-59). -/
  | uploadRejected (error : String)
  /-- The command was built and `.run()` called, with the resolved
  input/output formats (lines 86-176). -/
  | started (inputFormat outputFormat : String) (cmd : FfmpegCommand)
deriving DecidableEq, Repr

def ConvertOutcome.isStarted : ConvertOutcome → Bool
  | .started _ _ _ => true
  | _ => false

def ConvertOutcome.inputFmt : ConvertOutcome → Option String
  | .started i _ _ => some i
  | _ => none

def ConvertOutcome.outputFmt : ConvertOutcome → Option String
  | .started _ o _ => some o
  | _ => none

def ConvertOutcome.command : ConvertOutcome → Option FfmpegCommand
  | .started _ _ c => some c
  | _ => none

/-- The output directory constant (line 26, relative part). -/
def outputDir : String := "output"

/-- The `/convert` route handler body of variant 1 (lines 81-125),
given `req.file.path` (none when no file was uploaded) and the two
optional form fields.  Faithful points: defaults via `||` (lines 87-88),
output path from basename plus requested extension (lines 89-90), the
`if / else if` on the output format with no `else` branch
(lines 99-116), then unconditionally `audioCodec('aac')`,
`size('?x?')` and the output path (lines 119-125). -/
def convertHandler1 (file : Option String)
    (inputFormatField outputFormatField : Option String) : ConvertOutcome :=
  match file with
  | none => .noFile 400 "没有上传文件"
  | some inputPath =>
    let inputFormat := jsOrStr inputFormatField "mp4"
    let outputFormat := jsOrStr outputFormatField "ivf"
    let fileName := basenameWithout inputPath (extname inputPath)
    let outputPath := outputDir ++ "/" ++ fileName ++ "." ++ outputFormat
    let cmd0 : FfmpegCommand :=
      { input := inputPath, videoCodec := none, options := [],
        audioCodec := none, size := none, output := none }
    let cmd1 :=
      if outputFormat = "ivf" then
        { cmd0 with
          videoCodec := some "libvpx",
          options := ["-b:v 1M", "-quality good", "-cpu-used 0", "-deadline best"] }
      else if outputFormat = "mp4" then
        { cmd0 with
          videoCodec := some "libx264",
          options := ["-preset slow", "-crf 22", "-pix_fmt yuv420p"] }
      else cmd0
    .started inputFormat outputFormat
      { cmd1 with
        audioCodec := some "aac", size := some "?x?",
        output := some outputPath }

/-- The multer layer in front of the variant-1 route: no file field means
the handler sees `req.file` undefined; a file failing `fileFilter` is
rejected before being written to disk and the route handler never runs;
otherwise the file is persisted at the generated `storedPath` and the
handler runs.  The returned Bool records whether the upload was
persisted to the upload directory. -/
def uploadAndConvert1 (originalname : Option String)
    (inputFormatField outputFormatField : Option String)
    (storedPath : String) : Bool × ConvertOutcome :=
  match originalname with
  | none => (false, convertHandler1 none inputFormatField outputFormatField)
  | some name =>
    if fileFilter name then
      (true, convertHandler1 (some storedPath) inputFormatField outputFormatField)
    else
      (false, .uploadRejected ("不支持的文件格式: " ++ strToLower (extname name)))

/-- Variant 2 upload layer (line 368): `multer({ dest: 'uploads/' })`
with no `fileFilter`, so every request that carries a file has it
persisted to the upload directory unconditionally. -/
def upload2Persists (file : Option String) : Bool := file.isSome

/-- Variant 2 output options (lines 431-436): the audio stream is
re-encoded with libvorbis. -/
def outputOptions2 : List String :=
  ["-c:v libvpx", "-crf 10", "-b:v 2M", "-c:a libvorbis"]

/-! ## Variant 1: statistics and terminal-event handlers (lines 68-176) -/

/-- The process-wide counters `conversionStats` (lines 69-73). -/
structure Stats where
  totalConverted : Nat
  successfulConversions : Nat
  failedConversions : Nat
deriving DecidableEq, Repr

/-- Initial counters (lines 69-73). -/
def initStats : Stats :=
  { totalConverted := 0, successfulConversions := 0, failedConversions := 0 }

/-- An event pushed to the broadcast channel by the terminal handlers. -/
inductive Emitted where
  | errorMsg (msg : String)
deriving DecidableEq, Repr

/-- Observable state of the variant-1 server process touched by the
terminal handlers: the counters, the scheduled per-job deletions (the
`setTimeout` cleanups of lines 146-159, each recording the pair of
paths it will delete), the broadcast emissions, and the HTTP responses
sent (status code and, for success, the output filename). -/
structure OrchState where
  stats : Stats
  cleanupTimers : List (String × String)
  emitted : List Emitted
  responses : List (Nat × Option String)
deriving DecidableEq, Repr

/-- The state of a freshly started process. -/
def initState : OrchState :=
  { stats := initStats, cleanupTimers := [], emitted := [], responses := [] }

/-- The `on('end')` handler of variant 1 (lines 140-165): increment
`totalConverted` and `successfulConversions`, schedule one deletion of
both the input and the output path, and answer 200 with the output
filename. -/
def onEnd1 (inputPath outputPath : String) (s : OrchState) : OrchState :=
  { stats :=
      { s.stats with
        totalConverted := s.stats.totalConverted + 1,
        successfulConversions := s.stats.successfulConversions + 1 },
    cleanupTimers := s.cleanupTimers ++ [(inputPath, outputPath)],
    emitted := s.emitted,
    responses := s.responses ++
      [(200, some (basenameWithout outputPath ""))] }

/-- The `on('error')` handler of variant 1 (lines 166-175): increment
`totalConverted` and `failedConversions`, emit the failure message on
the broadcast channel, and answer 500 with no filename.  No cleanup
timer is scheduled on this path. -/
def onError1 (msg : String) (s : OrchState) : OrchState :=
  { stats :=
      { s.stats with
        totalConverted := s.stats.totalConverted + 1,
        failedConversions := s.stats.failedConversions + 1 },
    cleanupTimers := s.cleanupTimers,
    emitted := s.emitted ++ [.errorMsg ("视频转换失败: " ++ msg)],
    responses := s.responses ++ [(500, none)] }

/-- The `/convert` route seen together with the process state: the
route body itself mutates no counters, schedules no deletion and emits
nothing — all of that happens later inside the event handlers of the
started command — so the state passes through unchanged and the
outcome is the one computed by `convertHandler1`. -/
def convertRoute1 (file : Option String)
    (inputFormatField outputFormatField : Option String) (s : OrchState) :
    OrchState × ConvertOutcome :=
  (s, convertHandler1 file inputFormatField outputFormatField)

/-! ## Terminal-event traces, for the statistics invariant -/

/-- A terminal event as normalized by the adapter. -/
inductive TerminalKind where
  | success
  | failure (msg : String)
deriving DecidableEq, Repr

/-- Effect of one terminal event on the counters alone, as performed by
the two handlers above (lines 142-143 and 168-169). -/
def applyTerminal (st : Stats) (e : TerminalKind) : Stats :=
  match e with
  | .success =>
      { st with
        totalConverted := st.totalConverted + 1,
        successfulConversions := st.successfulConversions + 1 }
  | .failure _ =>
      { st with
        totalConverted := st.totalConverted + 1,
        failedConversions := st.failedConversions + 1 }

/-- Counters after a trace of terminal events, each tagged with the id
of the job that emitted it.  The counters are mutated only by the two
terminal handlers, so every reachable value of `conversionStats` is
`runTrace evs` for the process trace `evs`. -/
def runTrace (evs : List (Nat × TerminalKind)) : Stats :=
  evs.foldl (fun st e => applyTerminal st e.2) initStats

/-! ## IEEE-754-style arithmetic for the progress handlers

The ETA computations divide by quantities that can be zero; JavaScript
then produces `Infinity` or `NaN` rather than throwing, so the number
model must carry those values. -/

/-- A JavaScript number: a finite rational, an infinity, or `NaN`. -/
inductive JSNum where
  | num (q : ℚ)
  | inf
  | neginf
  | nan
deriving DecidableEq, Repr

def JSNum.isFinite : JSNum → Bool
  | .num _ => true
  | _ => false

/-- JavaScript division.  Finite by zero gives a signed infinity, zero
by zero gives `NaN`. -/
def jsDiv : JSNum → JSNum → JSNum
  | .nan, _ => .nan
  | _, .nan => .nan
  | .num a, .num b =>
      if b = 0 then (if a = 0 then .nan else if 0 < a then .inf else .neginf)
      else .num (a / b)
  | .inf, .num b => if b < 0 then .neginf else .inf
  | .neginf, .num b => if b < 0 then .inf else .neginf
  | .num _, .inf => .num 0
  | .num _, .neginf => .num 0
  | .inf, .inf => .nan
  | .inf, .neginf => .nan
  | .neginf, .inf => .nan
  | .neginf, .neginf => .nan

/-- JavaScript subtraction. -/
def jsSub : JSNum → JSNum → JSNum
  | .nan, _ => .nan
  | _, .nan => .nan
  | .num a, .num b => .num (a - b)
  | .inf, .num _ => .inf
  | .neginf, .num _ => .neginf
  | .num _, .inf => .neginf
  | .num _, .neginf => .inf
  | .inf, .neginf => .inf
  | .neginf, .inf => .neginf
  | .inf, .inf => .nan
  | .neginf, .neginf => .nan

/-- JavaScript addition. -/
def jsAdd : JSNum → JSNum → JSNum
  | .nan, _ => .nan
  | _, .nan => .nan
  | .num a, .num b => .num (a + b)
  | .inf, .num _ => .inf
  | .neginf, .num _ => .neginf
  | .num _, .inf => .inf
  | .num _, .neginf => .neginf
  | .inf, .inf => .inf
  | .neginf, .neginf => .neginf
  | .inf, .neginf => .nan
  | .neginf, .inf => .nan

/-- JavaScript multiplication. -/
def jsMul : JSNum → JSNum → JSNum
  | .nan, _ => .nan
  | _, .nan => .nan
  | .num a, .num b => .num (a * b)
  | .inf, .num b => if b = 0 then .nan else if 0 < b then .inf else .neginf
  | .num a, .inf => if a = 0 then .nan else if 0 < a then .inf else .neginf
  | .neginf, .num b => if b = 0 then .nan else if 0 < b then .neginf else .inf
  | .num a, .neginf => if a = 0 then .nan else if 0 < a then .neginf else .inf
  | .inf, .inf => .inf
  | .neginf, .neginf => .inf
  | .inf, .neginf => .neginf
  | .neginf, .inf => .neginf

/-- JavaScript `Math.max` on two numbers (`NaN` propagates). -/
def jsMax : JSNum → JSNum → JSNum
  | .nan, _ => .nan
  | _, .nan => .nan
  | .num a, .num b => .num (max a b)
  | .inf, _ => .inf
  | _, .inf => .inf
  | .num a, .neginf => .num a
  | .neginf, b => b

/-- JavaScript `Math.round` (half toward positive infinity on finite
values, identity on infinities, `NaN` on `NaN`). -/
def jsRound : JSNum → JSNum
  | .num q => .num ((⌊q + 1 / 2⌋ : ℤ) : ℚ)
  | x => x

/-- JavaScript `n || 0`: `NaN` and zero are falsy. -/
def jsOrZero (n : JSNum) : JSNum :=
  match n with
  | .nan => .num 0
  | .num q => if q = 0 then .num 0 else .num q
  | x => x

/-! ## Variant 1 progress handler (lines 128-137) -/

/-- The payload of one `io.emit('progress', ...)` of variant 1. -/
structure ProgressData1 where
  percent : ℚ
  time : String
  fps : JSNum
  remaining : JSNum
  etaIsValidDate : Bool
deriving DecidableEq, Repr

/-- The variant-1 `on('progress')` handler (lines 128-137): the percent
is forwarded raw; `remaining` is
`percent < 100 ? (100 - percent) * (frames / currentFps) / 100 : 0`;
the ETA is a `Date` built from
`Date.now() + ((100 - percent) * (frames / currentFps) * 1000) / 100`,
recorded here by whether that date is finite (valid). -/
def onProgress1 (percent frames currentFps nowMs : ℚ) (timemark : String) :
    ProgressData1 :=
  let ratio := jsDiv (.num frames) (.num currentFps)
  let remaining :=
    if percent < 100 then
      jsDiv (jsMul (.num (100 - percent)) ratio) (.num 100)
    else .num 0
  let etaArg :=
    jsAdd (.num nowMs)
      (jsDiv (jsMul (jsMul (.num (100 - percent)) ratio) (.num 1000)) (.num 100))
  { percent := percent, time := timemark,
    fps := jsOrZero (.num currentFps),
    remaining := remaining,
    etaIsValidDate := etaArg.isFinite }

/-- The percent values published by variant 1 for a sequence of raw
engine reports: line 131 forwards `progress.percent` unchanged. -/
def publishedPercents1 (raws : List ℚ) : List ℚ :=
  raws.map (fun p => p)

/-! ## Variant 2 progress handler (lines 442-469) -/

/-- The payload of one `io.emit('conversionProgress', ...)`. -/
structure ProgressData2 where
  percent : JSNum
  time : String
  fps : JSNum
  remainingTime : JSNum
  etaIsValidDate : Bool
deriving DecidableEq, Repr

/-- The variant-2 `on('progress')` handler (lines 442-469):
`percent = Math.round(raw * 100) / 100`,
`estimatedTotalTime = elapsedTime / (percent / 100)`,
`remainingTime = Math.max(0, estimatedTotalTime - elapsedTime)`,
`eta = new Date(Date.now() + remainingTime * 1000)`, recorded here by
whether that date is finite (valid); published fields apply `|| 0` to
the percent and fps and `Math.round` to the remaining time. -/
def onProgress2 (rawPercent rawFps elapsedMs nowMs : ℚ) (timemark : String) :
    ProgressData2 :=
  let percent := jsDiv (jsRound (jsMul (.num rawPercent) (.num 100))) (.num 100)
  let fps := jsOrZero (jsRound (.num rawFps))
  let elapsedTime : JSNum := .num (elapsedMs / 1000)
  let estimatedTotalTime := jsDiv elapsedTime (jsDiv percent (.num 100))
  let remainingTime := jsMax (.num 0) (jsSub estimatedTotalTime elapsedTime)
  let etaArg := jsAdd (.num nowMs) (jsMul remainingTime (.num 1000))
  { percent := jsOrZero percent,
    time := if timemark = "" then "00:00:00" else timemark,
    fps := fps,
    remainingTime := jsRound remainingTime,
    etaIsValidDate := etaArg.isFinite }

/-! ## Frontend progress consumer (App.tsx lines 143-155 and 286-292) -/

/-- The `conversionProgress` subscriber update (App.tsx lines 143-155):
the backend percent is mapped into the 50-100 band and clamped against
the previously displayed value with `Math.max`. -/
def frontendNextPercent (prev dataPercent : ℚ) : ℚ :=
  max prev (50 + dataPercent * (1 / 2))

/-- The successive displayed percent values produced by folding the
subscriber update over a list of received backend percents. -/
def frontendTrace (prev : ℚ) : List ℚ → List ℚ
  | [] => []
  | e :: es =>
      let n := frontendNextPercent prev e
      n :: frontendTrace n es

/-- Truncation toward zero, as JavaScript remainder requires. -/
def ratTrunc (q : ℚ) : ℤ :=
  if 0 ≤ q then ⌊q⌋ else -⌊-q⌋

/-- JavaScript `a % b` on finite numbers: remainder with the sign of the
dividend. -/
def jsRem (a b : ℚ) : ℚ := a - b * (ratTrunc (a / b) : ℚ)

/-- The frontend `formatTime` helper (App.tsx lines 286-292): `NaN` and
non-finite inputs render as the fixed string, finite inputs as
`HH:MM:SS`. -/
def formatTime (seconds : JSNum) : String :=
  match seconds with
  | .num q =>
      let hrs := ⌊q / 3600⌋
      let mins := ⌊jsRem q 3600 / 60⌋
      let secs := ⌊jsRem q 60⌋
      let pad := fun (i : ℤ) =>
        let s := toString i
        if s.length < 2 then
          String.mk (List.replicate (2 - s.length) '0') ++ s
        else s
      pad hrs ++ ":" ++ pad mins ++ ":" ++ pad secs
  | _ => "00:00:00"

/-! ## Theorems for the claims -/

/-- C9: when the `inputFormat` and `outputFormat` form fields are
absent, the submission does not fail: the handler substitutes the
defaults `mp4` and `ivf` and starts the transcode with the ivf
profile. -/
theorem C9_defaults (p : String) :
    convertHandler1 (some p) none none =
      ConvertOutcome.started "mp4" "ivf"
        { input := p, videoCodec := some "libvpx",
          options := ["-b:v 1M", "-quality good", "-cpu-used 0", "-deadline best"],
          audioCodec := some "aac", size := some "?x?",
          output := some (outputDir ++ "/" ++ basenameWithout p (extname p)
            ++ "." ++ "ivf") } := rfl

/-- C10: a convert request carrying no uploaded file is answered with a
400 error and fails atomically: the process state (counters, timers,
emissions, responses) is untouched and no command is started. -/
theorem C10_no_file (i o : Option String) (s : OrchState) :
    convertRoute1 none i o s = (s, .noFile 400 "没有上传文件") ∧
    (convertHandler1 none i o).isStarted = false :=
  ⟨rfl, rfl⟩

/-- C7: the transcode command does not pass the audio through — both
variants re-encode it (variant 1 sets the audio codec to `aac`,
variant 2 passes `-c:a libvorbis`); pass-through would require the
codec `copy`.  The frame size is kept (`?x?`). -/
theorem C7_audio_reencoded :
    (convertHandler1 (some "uploads/a.mp4") (some "mp4") (some "ivf")).command =
      some { input := "uploads/a.mp4", videoCodec := some "libvpx",
             options := ["-b:v 1M", "-quality good", "-cpu-used 0", "-deadline best"],
             audioCodec := some "aac", size := some "?x?",
             output := some ("output" ++ "/" ++ "a" ++ "." ++ "ivf") } ∧
    "aac" ≠ "copy" ∧
    outputOptions2.contains "-c:a libvorbis" = true := by
  refine ⟨rfl, by decide, by decide⟩

/-- C5 counterexample: a submission requesting the unknown output
format `webm` is not rejected — the handler builds a command (with no
format-specific options) and starts the transcode, contradicting the
claim that it fails with InvalidFormat before any job is created. -/
theorem C5_counterexample :
    convertHandler1 (some "uploads/123.mp4") (some "mp4") (some "webm") =
      ConvertOutcome.started "mp4" "webm"
        { input := "uploads/123.mp4", videoCodec := none, options := [],
          audioCodec := some "aac", size := some "?x?",
          output := some ("output" ++ "/" ++ "123" ++ "." ++ "webm") } := rfl

/-- C5 amended: for every output format other than `ivf` and `mp4`
(and non-empty, since the empty field is defaulted), the handler
performs no validation: it starts a transcode whose command carries no
video codec and no format options, with the output path taking the
unknown extension. -/
theorem C5_unknown_format_started (p fmt : String) (i : Option String)
    (h0 : fmt ≠ "") (h1 : fmt ≠ "ivf") (h2 : fmt ≠ "mp4") :
    convertHandler1 (some p) i (some fmt) =
      ConvertOutcome.started (jsOrStr i "mp4") fmt
        { input := p, videoCodec := none, options := [],
          audioCodec := some "aac", size := some "?x?",
          output := some (outputDir ++ "/" ++ basenameWithout p (extname p)
            ++ "." ++ fmt) } := by
  simp [convertHandler1, jsOrStr, h0, h1, h2]

/-- C5 witness: the amended statement evaluated at the concrete format
`webm`. -/
theorem C5_unknown_format_started_witness :
    (("webm" : String) ≠ "" ∧ ("webm" : String) ≠ "ivf" ∧ ("webm" : String) ≠ "mp4") ∧
    convertHandler1 (some "uploads/123.mp4") (some "mp4") (some "webm") =
      ConvertOutcome.started (jsOrStr (some "mp4") "mp4") "webm"
        { input := "uploads/123.mp4", videoCodec := none, options := [],
          audioCodec := some "aac", size := some "?x?",
          output := some (outputDir ++ "/"
            ++ basenameWithout "uploads/123.mp4" (extname "uploads/123.mp4")
            ++ "." ++ "webm") } :=
  ⟨⟨by decide, by decide, by decide⟩,
    C5_unknown_format_started "uploads/123.mp4" "webm" (some "mp4")
      (by decide) (by decide) (by decide)⟩

/-- C6 counterexample: the second server variant configures multer
without a fileFilter, so an upload named `evil.txt` — whose extension
fails the supported-format check — is nevertheless persisted to the
upload directory, contradicting the claim that every such submission
fails before any file is persisted. -/
theorem C6_counterexample :
    upload2Persists (some "evil.txt") = true ∧ fileFilter "evil.txt" = false :=
  ⟨rfl, by decide⟩

/-- C6 amended: in the server variant with the multer fileFilter, an
upload whose lower-cased extension is outside the supported set is
rejected before it is persisted: no file is stored, the route handler
never runs (so no job is created and the counters are untouched), and
the rejection carries the InvalidFormat message. -/
theorem C6_filefilter_rejects (name sp : String) (i o : Option String)
    (h : fileFilter name = false) :
    uploadAndConvert1 (some name) i o sp =
      (false, .uploadRejected ("不支持的文件格式: " ++ strToLower (extname name))) := by
  simp [uploadAndConvert1, h]

/-- C6 witness: the amended statement evaluated at the upload name
`evil.txt`. -/
theorem C6_filefilter_rejects_witness :
    fileFilter "evil.txt" = false ∧
    uploadAndConvert1 (some "evil.txt") none none "uploads/9.txt" =
      (false, .uploadRejected ("不支持的文件格式: "
        ++ strToLower (extname "evil.txt"))) :=
  ⟨by decide, C6_filefilter_rejects "evil.txt" "uploads/9.txt" none none (by decide)⟩

/-- C1 counterexample: the backend publishes raw engine percents — for
the raw reports 80 then 60 the published sequence is 80 then 60, which
decreases, contradicting the claim that the published sequence is
monotonically non-decreasing. -/
theorem C1_counterexample :
    publishedPercents1 [80, 60] = [80, 60] ∧
    ¬ List.Chain' (fun a b => a ≤ b) (publishedPercents1 ([80, 60] : List ℚ)) := by
  refine ⟨rfl, ?_⟩
  simp [publishedPercents1, List.chain'_cons]
  norm_num

/-- C1 amended: the monotonic clamp lives in the frontend subscriber,
not in the backend publisher: the displayed percent is updated with
`max(prev, 50 + percent / 2)`, so the sequence of displayed values is
monotonically non-decreasing whatever the backend publishes. -/
theorem C1_frontend_clamp_monotone (init : ℚ) (events : List ℚ) :
    List.Chain' (fun a b => a ≤ b) (init :: frontendTrace init events) := by
  induction events generalizing init with
  | nil => simp [frontendTrace]
  | cons e es ih =>
      rw [frontendTrace]
      exact List.chain'_cons.mpr ⟨le_max_left _ _, ih _⟩

/-- C2 counterexample: terminal handling is not idempotent — after two
`end` callbacks for the same job, `totalConverted` is 2 and two cleanup
deletions are scheduled, contradicting the claim that a second terminal
callback is ignored. -/
theorem C2_counterexample :
    (onEnd1 "uploads/a.mp4" "output/a.ivf"
        (onEnd1 "uploads/a.mp4" "output/a.ivf" initState)).stats.totalConverted = 2 ∧
    (onEnd1 "uploads/a.mp4" "output/a.ivf"
        (onEnd1 "uploads/a.mp4" "output/a.ivf" initState)).cleanupTimers.length = 2 :=
  ⟨rfl, rfl⟩

/-- C2 amended: the terminal handlers perform no phase check, so a
second terminal callback for the same job is processed again exactly
like the first: every `end` callback increments the counters and
schedules one more deletion of the artifacts, and every `error`
callback increments the failure counters again. -/
theorem C2_terminal_not_idempotent (s : OrchState) (i o m : String) :
    (onEnd1 i o (onEnd1 i o s)).stats.totalConverted
        = s.stats.totalConverted + 2 ∧
    (onEnd1 i o (onEnd1 i o s)).cleanupTimers.length
        = s.cleanupTimers.length + 2 ∧
    (onError1 m (onError1 m s)).stats.failedConversions
        = s.stats.failedConversions + 2 := by
  refine ⟨rfl, ?_, rfl⟩
  simp [onEnd1]

/-- C3 counterexample: the failure handler schedules no retention
deletion at all — after an `error` callback on a fresh process the
counters show one failure but the list of scheduled cleanups is empty,
contradicting the claim that deletion of the input artifact is
scheduled. -/
theorem C3_counterexample :
    (onError1 "boom" initState).stats =
      { totalConverted := 1, successfulConversions := 0, failedConversions := 1 } ∧
    (onError1 "boom" initState).cleanupTimers = [] :=
  ⟨rfl, rfl⟩

/-- C3 amended: on a transcode failure the handler increments the
Statistics (`total` and `failed`), emits a failure event carrying the
message, and answers 500 with no output filename (so no output is
exposed for download); it schedules no per-job deletion — the input
artifact is reclaimed only by the periodic sweep. -/
theorem C3_failure_handler_effects (s : OrchState) (msg : String) :
    (onError1 msg s).stats.totalConverted = s.stats.totalConverted + 1 ∧
    (onError1 msg s).stats.failedConversions = s.stats.failedConversions + 1 ∧
    (onError1 msg s).stats.successfulConversions = s.stats.successfulConversions ∧
    (onError1 msg s).cleanupTimers = s.cleanupTimers ∧
    (onError1 msg s).emitted = s.emitted ++ [.errorMsg ("视频转换失败: " ++ msg)] ∧
    (onError1 msg s).responses = s.responses ++ [(500, none)] :=
  ⟨rfl, rfl, rfl, rfl, rfl, rfl⟩

/-! Helper lemmas for the statistics invariant. -/

theorem applyTerminal_total (st : Stats) (e : TerminalKind) :
    (applyTerminal st e).totalConverted = st.totalConverted + 1 := by
  cases e <;> rfl

theorem foldTerminals_total (evs : List (Nat × TerminalKind)) (st : Stats) :
    (evs.foldl (fun st e => applyTerminal st e.2) st).totalConverted
      = st.totalConverted + evs.length := by
  induction evs generalizing st with
  | nil => simp
  | cons e es ih =>
      rw [List.foldl_cons, ih, applyTerminal_total, List.length_cons]
      omega

theorem foldTerminals_sum (evs : List (Nat × TerminalKind)) (st : Stats)
    (h : st.totalConverted = st.successfulConversions + st.failedConversions) :
    (evs.foldl (fun st e => applyTerminal st e.2) st).totalConverted
      = (evs.foldl (fun st e => applyTerminal st e.2) st).successfulConversions
        + (evs.foldl (fun st e => applyTerminal st e.2) st).failedConversions := by
  induction evs generalizing st with
  | nil => simpa using h
  | cons e es ih =>
      rw [List.foldl_cons]
      refine ih _ ?_
      cases e.2 <;> simp [applyTerminal] <;> omega

/-- C4: as long as the adapter honors its contract of at most one
terminal event per job (the ids in the trace are distinct), every
reachable value of the counters satisfies
`totalConverted = successfulConversions + failedConversions`, and
`totalConverted` equals the number of jobs that reached a terminal
phase. -/
theorem C4_stats_invariant (evs : List (Nat × TerminalKind))
    (h : (evs.map Prod.fst).Nodup) :
    (runTrace evs).totalConverted
        = (runTrace evs).successfulConversions + (runTrace evs).failedConversions ∧
    (runTrace evs).totalConverted = (evs.map Prod.fst).toFinset.card := by
  constructor
  · exact foldTerminals_sum evs initStats rfl
  · rw [runTrace, foldTerminals_total, List.toFinset_card_of_nodup h,
      List.length_map]
    simp [initStats]

/-- C4 witness: the invariant evaluated on a concrete two-job trace. -/
theorem C4_stats_invariant_witness :
    (([((1 : Nat), TerminalKind.success),
       (2, TerminalKind.failure "boom")].map Prod.fst).Nodup) ∧
    ((runTrace [((1 : Nat), TerminalKind.success),
        (2, TerminalKind.failure "boom")]).totalConverted
      = (runTrace [((1 : Nat), TerminalKind.success),
          (2, TerminalKind.failure "boom")]).successfulConversions
        + (runTrace [((1 : Nat), TerminalKind.success),
            (2, TerminalKind.failure "boom")]).failedConversions ∧
     (runTrace [((1 : Nat), TerminalKind.success),
        (2, TerminalKind.failure "boom")]).totalConverted
      = ([((1 : Nat), TerminalKind.success),
          (2, TerminalKind.failure "boom")].map Prod.fst).toFinset.card) :=
  ⟨by decide, C4_stats_invariant _ (by decide)⟩

/-! Helper evaluation lemmas for the variant-2 progress handler at
completed percent 0. -/

theorem jsRound_zero : jsRound (JSNum.num 0) = JSNum.num 0 := by
  have : ⌊(0 : ℚ) + 1 / 2⌋ = 0 := by
    rw [Int.floor_eq_zero_iff]
    constructor
    · norm_num
    · norm_num
  simp [jsRound, this]
  norm_num

theorem jsDiv_zero_hundred : jsDiv (JSNum.num 0) (JSNum.num 100) = JSNum.num 0 := by
  norm_num [jsDiv]

theorem jsDiv_pos_zero (a : ℚ) (h : 0 < a) :
    jsDiv (JSNum.num a) (JSNum.num 0) = JSNum.inf := by
  simp [jsDiv, ne_of_gt h, h]

theorem jsMul_inf_thousand : jsMul JSNum.inf (JSNum.num 1000) = JSNum.inf := by
  norm_num [jsMul]

/-- Evaluation of the variant-2 progress handler at completed percent 0
with positive elapsed wall-clock time: the divide-by-zero flows into
the published event as an infinite remaining time and an invalid-date
ETA. -/
theorem onProgress2_zero (rawFps elapsedMs nowMs : ℚ) (tm : String)
    (h : 0 < elapsedMs) :
    onProgress2 0 rawFps elapsedMs nowMs tm =
      { percent := .num 0, time := if tm = "" then "00:00:00" else tm,
        fps := jsOrZero (jsRound (.num rawFps)),
        remainingTime := .inf, etaIsValidDate := false } := by
  have h1 : (0 : ℚ) < elapsedMs / 1000 := by positivity
  have e1 : jsMul (JSNum.num 0) (JSNum.num 100) = JSNum.num 0 := by
    simp [jsMul]
  have e4 : jsDiv (JSNum.num (elapsedMs / 1000)) (JSNum.num 0) = JSNum.inf :=
    jsDiv_pos_zero _ h1
  have e10 : jsOrZero (JSNum.num 0) = JSNum.num 0 := by simp [jsOrZero]
  simp only [onProgress2, e1, jsRound_zero, jsDiv_zero_hundred, e4]
  simp only [jsSub, jsMax, jsRound, jsMul_inf_thousand, jsAdd, JSNum.isFinite, e10]

/-- C8 counterexample: at completed percent 0 (5 elapsed seconds) the
variant-2 progress handler publishes the event anyway, with
`remainingTime = Infinity` and an invalid-date ETA — exactly the
divide-by-zero artifact the claim says is never published. -/
theorem C8_counterexample :
    onProgress2 0 0 5000 0 "00:00:05" =
      { percent := .num 0, time := "00:00:05", fps := .num 0,
        remainingTime := .inf, etaIsValidDate := false } := by
  rw [onProgress2_zero 0 5000 0 "00:00:05" (by norm_num)]
  simp [jsRound_zero, jsOrZero]

/-- C8 amended: whenever the completed percent is 0 and some wall-clock
time has elapsed, the published event carries
`remainingTime = Infinity` and an ETA built from an invalid date (the
string rendering of an invalid date, not an omitted or unknown
marker); the frontend `formatTime` masks the non-finite remaining time
as `00:00:00`, but the invalid ETA string is displayed verbatim. -/
theorem C8_percent_zero_publishes_infinity (rawFps elapsedMs nowMs : ℚ)
    (tm : String) (h : 0 < elapsedMs) :
    (onProgress2 0 rawFps elapsedMs nowMs tm).percent = .num 0 ∧
    (onProgress2 0 rawFps elapsedMs nowMs tm).remainingTime = .inf ∧
    (onProgress2 0 rawFps elapsedMs nowMs tm).etaIsValidDate = false ∧
    formatTime (onProgress2 0 rawFps elapsedMs nowMs tm).remainingTime
      = "00:00:00" := by
  rw [onProgress2_zero rawFps elapsedMs nowMs tm h]
  exact ⟨rfl, rfl, rfl, rfl⟩

/-- C8 witness: the amended statement evaluated at 5 elapsed seconds. -/
theorem C8_percent_zero_witness :
    ((0 : ℚ) < 5000) ∧
    ((onProgress2 0 25 5000 0 "00:00:05").percent = .num 0 ∧
     (onProgress2 0 25 5000 0 "00:00:05").remainingTime = .inf ∧
     (onProgress2 0 25 5000 0 "00:00:05").etaIsValidDate = false ∧
     formatTime (onProgress2 0 25 5000 0 "00:00:05").remainingTime = "00:00:00") :=
  ⟨by norm_num, C8_percent_zero_publishes_infinity 25 5000 0 "00:00:05" (by norm_num)⟩

end IvfWeb
